import Mathlib

/-!
Shallow embedding of drivers/input/keyboard/gpio_keys.c: the per-line
enable/disable registry, the debounce/deferral pipeline, the long-press
remap state machine for the volume and home lines, and the key-emulation
paths, together with theorems checking the specification's claims.
-/

namespace GpioKeys

/-! Constants from the Linux uapi input headers (linux/input.h). -/

def EV_KEY : Nat := 1
def EV_ABS : Nat := 3
def EV_SW : Nat := 5
def KEY_CNT : Nat := 768
def SW_CNT : Nat := 16
def KEY_HOME : Nat := 102
def KEY_VOLUMEDOWN : Nat := 114
def KEY_VOLUMEUP : Nat := 115
def KEY_POWER : Nat := 116
def KEY_NEXTSONG : Nat := 163
def KEY_PLAYPAUSE : Nat := 164
def KEY_PREVIOUSSONG : Nat := 165

/-- Modelled from the spec: board-specific GPIO line numbers from
mach/board-sec-u8500.h, a header outside src/.  The spec only requires the
volume-up, volume-down and home lines to be distinct physical lines, so the
concrete values are arbitrary distinct naturals. -/
def VOL_UP_JANICE_R0_0 : Nat := 91

/-- Modelled from the spec: volume-down line number (see VOL_UP_JANICE_R0_0). -/
def VOL_DOWN_JANICE_R0_0 : Nat := 92

/-- Modelled from the spec: home line number (see VOL_UP_JANICE_R0_0). -/
def HOME_KEY_JANICE_R0_0 : Nat := 93

/-- Modelled from the spec: key code used as the home line's primary
emulated code in homekey_do_press_play_fn; a board constant outside src/. -/
def HOME_KEY_CODINA_R0_5 : Nat := 94

/-- Modelled from the spec: the external line-to-interrupt-number mapping
(gpio_to_irq).  The spec treats it as an injective lookup; identity serves. -/
def gpio_to_irq (gpio : Nat) : Nat := gpio

/-- Static per-line configuration, struct gpio_keys_button. -/
structure GpioKeysButton where
  code : Nat
  gpio : Nat
  active_low : Bool
  /-- Raw event type field; 0 means unset, defaulted to EV_KEY at report time. -/
  btype : Nat
  wakeup : Bool
  debounce_interval : Nat
  can_disable : Bool
  /-- Axis value reported for EV_ABS lines. -/
  value : Nat
  deriving DecidableEq, Repr

/-- Runtime per-line state, struct gpio_button_data.  `irqEnabled` models the
line's interrupt mask (true = unmasked); `timerPending` models a live debounce
timer; `workPending` models queued deferred work. -/
structure GpioButtonData where
  button : GpioKeysButton
  timer_debounce : Nat
  disabled : Bool
  key_state : Bool
  irqEnabled : Bool
  timerPending : Bool
  workPending : Bool
  deriving DecidableEq, Repr

/-- Externally visible actions of the enable/disable control path. -/
inductive Act where
  | mutexLock
  | mutexUnlock
  | disableIrq (irq : Nat)
  | enableIrq (irq : Nat)
  | delTimerSync (gpio : Nat)
  deriving DecidableEq, Repr

/-- gpio_keys_disable_button: if the line is not already disabled, mask its
interrupt, synchronously cancel a pending debounce timer when the line uses
one, and mark it disabled; otherwise do nothing. -/
def gpio_keys_disable_button (b : GpioButtonData) : GpioButtonData × List Act :=
  if b.disabled = false then
    ({ b with
        irqEnabled := false
        timerPending := if b.timer_debounce ≠ 0 then false else b.timerPending
        disabled := true },
      .disableIrq (gpio_to_irq b.button.gpio) ::
        (if b.timer_debounce ≠ 0 then [.delTimerSync b.button.gpio] else []))
  else (b, [])

/-- gpio_keys_enable_button: if the line is disabled, unmask its interrupt and
clear the disabled flag; otherwise do nothing. -/
def gpio_keys_enable_button (b : GpioButtonData) : GpioButtonData × List Act :=
  if b.disabled = true then
    ({ b with irqEnabled := true, disabled := false },
      [.enableIrq (gpio_to_irq b.button.gpio)])
  else (b, [])

/-- gpio_keys_attr_show_helper: the set of codes written into the bitmap for
lines of the event class `typ`; with `only_disabled` set, only currently
disabled lines contribute. -/
def gpio_keys_attr_show_helper (buttons : List GpioButtonData)
    (typ : Nat) (only_disabled : Bool) : Finset Nat :=
  ((buttons.filter (fun b =>
      b.button.btype = typ ∧ (only_disabled = false ∨ b.disabled = true))).map
    (fun b => b.button.code)).toFinset

/-- Error results of the disabled-set store path. -/
inductive StoreError where
  | parseError
  | EINVAL
  deriving DecidableEq, Repr

/-- gpio_keys_attr_store_helper.  `parsed` is the outcome of the external
bitmap_parselist call on the user buffer: none when parsing failed, otherwise
the set of codes named.  On success the whole apply loop runs between one
mutexLock/mutexUnlock pair of ddata.disable_lock. -/
def gpio_keys_attr_store_helper (buttons : List GpioButtonData)
    (typ : Nat) (parsed : Option (List Nat)) :
    Except StoreError (List GpioButtonData × List Act) :=
  match parsed with
  | none => .error .parseError
  | some bits =>
    if buttons.any (fun b =>
        b.button.btype = typ ∧ b.button.code ∈ bits ∧ b.button.can_disable = false) then
      .error .EINVAL
    else
      let stepped := buttons.map (fun b =>
        if b.button.btype = typ then
          if b.button.code ∈ bits then gpio_keys_disable_button b
          else gpio_keys_enable_button b
        else (b, []))
      .ok (stepped.map Prod.fst,
        .mutexLock :: ((stepped.map Prod.snd).flatten ++ [.mutexUnlock]))

/-- Body of the apply loop of gpio_keys_attr_store_helper for one line:
lines of the written class are disabled or enabled according to the bitmap,
other lines are untouched. -/
def applyLine (typ : Nat) (bits : List Nat) (b : GpioButtonData) :
    GpioButtonData × List Act :=
  if b.button.btype = typ then
    if b.button.code ∈ bits then gpio_keys_disable_button b
    else gpio_keys_enable_button b
  else (b, [])

/-- The sysfs store entry point (ATTR_STORE_FN): on helper failure the error
is propagated and the registry is untouched; on success the byte count is
returned with the updated registry. -/
def gpio_keys_store_disabled (buttons : List GpioButtonData) (typ : Nat)
    (parsed : Option (List Nat)) (count : Nat) :
    (Except StoreError Nat) × List GpioButtonData × List Act :=
  match gpio_keys_attr_store_helper buttons typ parsed with
  | .error e => (.error e, buttons, [])
  | .ok (buttons', acts) => (.ok count, buttons', acts)

/-- wakeup_enable: parse the buffer against the key-code space; on parse
failure nothing changes; otherwise every configured line's wakeup flag is set
exactly when its code is named.  The full byte count is returned either way. -/
def wakeup_enable (buttons : List GpioButtonData)
    (parsed : Option (List Nat)) (count : Nat) : List GpioButtonData × Nat :=
  match parsed with
  | none => (buttons, count)
  | some bits =>
    (buttons.map (fun b =>
      { b with button := { b.button with wakeup := b.button.code ∈ bits } }),
      count)

/-! Long-press remap state machine and emulation paths. -/

/-- Emissions to the external collaborators observable from the report and
emulation paths. -/
inductive Emu where
  /-- ab8500_ponkey_emulator(key, state). -/
  | ponkey (key : Nat) (state : Nat)
  /-- abb_ponkey_remap_power_key(KEY_POWER, target). -/
  | remapPower (target : Nat)
  /-- unmap_keys(), restoring the shared transport's default binding. -/
  | unmapAll
  /-- input_event(input, ty, code, value). -/
  | inputEv (ty : Nat) (code : Nat) (value : Nat)
  /-- input_sync(input). -/
  | inputSync
  deriving DecidableEq, Repr

/-- Module-level policy flags read by gpio_keys_report_event; constant over a
gesture. -/
structure Config where
  emulator_volup : Bool
  emulator_voldown : Bool
  volkey_press_skip_track : Bool
  homekey_press_play : Bool
  volkey_skip_tracks_in_suspend_only : Bool
  homekey_press_play_in_suspend_only : Bool
  is_suspend : Bool
  is_early_suspend : Bool
  deriving DecidableEq, Repr

/-- Mutable globals of the two remap sessions, plus the pending state of the
four work items (volkey_skip_track_work, homekey_press_play_work,
volkey_do_volume_key_press_work, homekey_do_press_play_work). -/
structure RemapState where
  volkey_skip_track_is_ongoing : Bool := false
  homekey_press_play_is_ongoing : Bool := false
  volkey_do_volume_key_press_is_ongoing : Bool := false
  homekey_do_press_play_is_ongoing : Bool := false
  volkey_skip_track_now : Bool := false
  homekey_press_play_now : Bool := false
  volkey_remap_keys : Bool := false
  homekey_is_remapped : Bool := false
  volkey_emulate_key_nextsong : Bool := false
  volDelayedPending : Bool := false
  homeDelayedPending : Bool := false
  volPressQueued : Bool := false
  homePressQueued : Bool := false
  deriving DecidableEq, Repr

/-- State with no gesture, timer, or emulation in progress. -/
def RemapState.idle : RemapState := {}

/-- The guard of the long-press interception branch in
gpio_keys_report_event. -/
def remapGate (cfg : Config) : Bool :=
  (cfg.volkey_press_skip_track || cfg.homekey_press_play) && !cfg.is_suspend &&
    (cfg.is_early_suspend || !cfg.volkey_skip_tracks_in_suspend_only ||
      !cfg.homekey_press_play_in_suspend_only)

/-- Home-line body of gpio_keys_report_event (the gpio == HOME_KEY_JANICE_R0_0
block): re-press cancels a running long-press timer, a press arms the timer
and swallows the event, a release schedules the press-play work with the
alternate (KEY_PLAYPAUSE) or primary (HOME_KEY_CODINA_R0_5) code depending on
whether the timer fired, unless that work is already in flight. -/
def homekeyBlock (rs : RemapState) (state : Nat) : RemapState × List Emu :=
  let rs1 := if rs.homekey_press_play_is_ongoing ∧ state = 1 then
      { rs with homeDelayedPending := false, homekey_press_play_is_ongoing := false,
                homekey_press_play_now := false }
    else rs
  if state = 1 then
    (if rs1.homekey_press_play_is_ongoing = false then
      { rs1 with homeDelayedPending := true, homekey_press_play_now := false,
                 homekey_press_play_is_ongoing := true }
     else rs1, [])
  else if state = 0 ∧ rs1.homekey_press_play_now then
    if rs1.homekey_do_press_play_is_ongoing = false then
      ({ rs1 with homekey_is_remapped := true, homePressQueued := true,
                  homekey_do_press_play_is_ongoing := true,
                  homekey_press_play_now := false },
       [.remapPower KEY_PLAYPAUSE])
    else (rs1, [])
  else
    if rs1.homekey_do_press_play_is_ongoing = false then
      ({ rs1 with homekey_is_remapped := false, homePressQueued := true,
                  homekey_do_press_play_is_ongoing := true },
       [.remapPower HOME_KEY_CODINA_R0_5])
    else (rs1, [])

/-- Volume-line body of gpio_keys_report_event (the gpio == VOL_UP or VOL_DOWN
block).  The direction selector volkey_emulate_key_nextsong is assigned from
the current edge's line on every edge, before the press/release cases. -/
def volkeyBlock (rs : RemapState) (gpio : Nat) (state : Nat) : RemapState × List Emu :=
  let rs1 := if rs.volkey_skip_track_is_ongoing ∧ state = 1 then
      { rs with volDelayedPending := false, volkey_skip_track_is_ongoing := false,
                volkey_skip_track_now := false }
    else rs
  let rs2 := { rs1 with volkey_emulate_key_nextsong := gpio = VOL_UP_JANICE_R0_0 }
  if state = 1 then
    (if rs2.volkey_skip_track_is_ongoing = false then
      { rs2 with volDelayedPending := true, volkey_skip_track_now := false,
                 volkey_skip_track_is_ongoing := true }
     else rs2, [])
  else if state = 0 ∧ rs2.volkey_skip_track_now then
    if rs2.volkey_do_volume_key_press_is_ongoing = false then
      ({ rs2 with volkey_remap_keys := true, volPressQueued := true,
                  volkey_do_volume_key_press_is_ongoing := true,
                  volkey_skip_track_now := false },
       [.remapPower (if rs2.volkey_emulate_key_nextsong then KEY_NEXTSONG
                     else KEY_PREVIOUSSONG)])
    else (rs2, [])
  else
    if rs2.volkey_do_volume_key_press_is_ongoing = false then
      ({ rs2 with volkey_remap_keys := false, volPressQueued := true,
                  volkey_do_volume_key_press_is_ongoing := true },
       [.remapPower (if rs2.volkey_emulate_key_nextsong then KEY_VOLUMEUP
                     else KEY_VOLUMEDOWN)])
    else (rs2, [])

/-- Logical state of a line: current electrical level xor active-low
polarity, as computed at the top of gpio_keys_report_event. -/
def logicalState (b : GpioKeysButton) (level : Bool) : Nat :=
  (if level then 1 else 0) ^^^ (if b.active_low then 1 else 0)

/-- Effective event class of a line: the raw type field, defaulted to EV_KEY
when unset (button->type ?: EV_KEY). -/
def effType (b : GpioKeysButton) : Nat :=
  if b.btype = 0 then EV_KEY else b.btype

/-- Final reporting path of gpio_keys_report_event: EV_ABS lines report only
when active and never touch key_state; other lines record and report the
logical state, then sync. -/
def normalReport (rs : RemapState) (bd : GpioButtonData) (ty state : Nat) :
    RemapState × GpioButtonData × List Emu :=
  if ty = EV_ABS then
    (rs, bd,
      (if state ≠ 0 then [Emu.inputEv ty bd.button.code bd.button.value] else [])
        ++ [.inputSync])
  else
    (rs, { bd with key_state := state ≠ 0 },
      [.inputEv ty bd.button.code (if state ≠ 0 then 1 else 0), .inputSync])

/-- gpio_keys_report_event: deferred evaluation of one line.  Reads the
current electrical level, applies polarity, then runs the power-key emulator
overrides, the long-press interception branch, or the ordinary reporting
path. -/
def gpio_keys_report_event (cfg : Config) (rs : RemapState) (bd : GpioButtonData)
    (level : Bool) : RemapState × GpioButtonData × List Emu :=
  let button := bd.button
  let ty := effType button
  let state : Nat := logicalState button level
  if cfg.emulator_volup then
    if button.gpio = VOL_UP_JANICE_R0_0 then (rs, bd, [.ponkey KEY_POWER state])
    else normalReport rs bd ty state
  else if cfg.emulator_voldown then
    if button.gpio = VOL_DOWN_JANICE_R0_0 then (rs, bd, [.ponkey KEY_POWER state])
    else normalReport rs bd ty state
  else if remapGate cfg then
    if (cfg.homekey_press_play || !cfg.homekey_press_play_in_suspend_only) &&
        button.gpio = HOME_KEY_JANICE_R0_0 then
      let r := homekeyBlock rs state
      (r.1, bd, r.2)
    else if (cfg.volkey_press_skip_track || !cfg.volkey_skip_tracks_in_suspend_only) &&
        (button.gpio = VOL_UP_JANICE_R0_0 || button.gpio = VOL_DOWN_JANICE_R0_0) then
      let r := volkeyBlock rs button.gpio state
      (r.1, bd, r.2)
    else normalReport rs bd ty state
  else normalReport rs bd ty state

/-- volkey_skip_track_fn: the delayed work marking that the long-press window
has elapsed. -/
def volkey_skip_track_fn (rs : RemapState) : RemapState :=
  { rs with volkey_skip_track_now := true, volkey_skip_track_is_ongoing := false }

/-- homekey_press_play_fn: home-session long-press window elapsed. -/
def homekey_press_play_fn (rs : RemapState) : RemapState :=
  { rs with homekey_press_play_now := true, homekey_press_play_is_ongoing := false }

/-- volkey_do_volume_key_press_fn: emit one synthetic pulse (press, hold,
release, unmap) of the code chosen from volkey_remap_keys and
volkey_emulate_key_nextsong, then clear the in-flight marker. -/
def volkey_do_volume_key_press_fn (rs : RemapState) : RemapState × List Emu :=
  let key := if rs.volkey_remap_keys then
      (if rs.volkey_emulate_key_nextsong then KEY_NEXTSONG else KEY_PREVIOUSSONG)
    else
      (if rs.volkey_emulate_key_nextsong then KEY_VOLUMEUP else KEY_VOLUMEDOWN)
  ({ rs with volkey_do_volume_key_press_is_ongoing := false },
   [.ponkey key 1, .ponkey key 0, .unmapAll])

/-- homekey_do_press_play_fn: emit one synthetic pulse of KEY_PLAYPAUSE or
HOME_KEY_CODINA_R0_5 according to homekey_is_remapped. -/
def homekey_do_press_play_fn (rs : RemapState) : RemapState × List Emu :=
  let key := if rs.homekey_is_remapped then KEY_PLAYPAUSE else HOME_KEY_CODINA_R0_5
  ({ rs with homekey_do_press_play_is_ongoing := false },
   [.ponkey key 1, .ponkey key 0, .unmapAll])

/-- Events of the remap machine: a deferred evaluation of an edge (carrying
the line and its current electrical level), expiry of either session's
long-press delayed work, and execution of either session's queued emulation
work. -/
inductive REvent where
  | edge (bd : GpioButtonData) (level : Bool)
  | volTimer
  | homeTimer
  | volPressRun
  | homePressRun
  deriving Repr

/-- One scheduler step: timers fire only while armed, works run only while
queued; anything else is a no-op. -/
def remapStep (cfg : Config) (rs : RemapState) (e : REvent) : RemapState × List Emu :=
  match e with
  | .edge bd level =>
    let r := gpio_keys_report_event cfg rs bd level
    (r.1, r.2.2)
  | .volTimer =>
    if rs.volDelayedPending then
      ({ volkey_skip_track_fn rs with volDelayedPending := false }, [])
    else (rs, [])
  | .homeTimer =>
    if rs.homeDelayedPending then
      ({ homekey_press_play_fn rs with homeDelayedPending := false }, [])
    else (rs, [])
  | .volPressRun =>
    if rs.volPressQueued then
      let r := volkey_do_volume_key_press_fn rs
      ({ r.1 with volPressQueued := false }, r.2)
    else (rs, [])
  | .homePressRun =>
    if rs.homePressQueued then
      let r := homekey_do_press_play_fn rs
      ({ r.1 with homePressQueued := false }, r.2)
    else (rs, [])

/-- Run a list of events, concatenating the emissions. -/
def runRemap (cfg : Config) (rs : RemapState) : List REvent → RemapState × List Emu
  | [] => (rs, [])
  | e :: es =>
    let r1 := remapStep cfg rs e
    let r2 := runRemap cfg r1.1 es
    (r2.1, r1.2 ++ r2.2)

/-- The synthetic key codes asserted pressed through the shared transport, in
order; each is immediately followed in the emission stream by its release, so
this lists the emulation pulses. -/
def pulseList (es : List Emu) : List Nat :=
  es.filterMap (fun e => match e with
    | .ponkey k s => if s = 1 then some k else none
    | _ => none)

/-- State of the on-demand injection path (emu sysfs attribute). -/
structure EmuState where
  emu_working : Bool
  emu_keycode : Nat
  emuQueued : Bool
  deriving DecidableEq, Repr

/-- Press-command branch of gpio_keys_emulator_store: schedule the emulation
work only when no pulse is running and a code is set; otherwise the request
is dropped (only logged). -/
def gpio_keys_emulator_store_press (s : EmuState) : EmuState :=
  if s.emu_working = false ∧ s.emu_keycode ≠ 0 then { s with emuQueued := true }
  else s

/-! Per-line debounce and deferral pipeline. -/

/-- Live state of one line's debounce timer and deferred work. -/
structure LineState where
  timerExpiry : Option Nat
  workQueued : Bool
  deriving DecidableEq, Repr

/-- Events of one line's pipeline: a hardware edge at time t (the carried
level is what the line reads at that instant — the ISR never looks at it), the
timer expiring at time t, and the deferred work running while the line reads
the given level. -/
inductive LEvent where
  | edge (t : Nat) (level : Bool)
  | timerFire (t : Nat)
  | workRun (level : Bool)
  deriving DecidableEq, Repr

/-- gpio_keys_isr: with software debounce, mod_timer (re)arms the single
one-shot timer to now + debounce, overwriting any pending expiry; without it,
the deferred work is queued directly. -/
def gpio_keys_isr (debounce : Nat) (t : Nat) (s : LineState) : LineState :=
  if debounce ≠ 0 then { s with timerExpiry := some (t + debounce) }
  else { s with workQueued := true }

/-- One pipeline step; the work's evaluation output is the logical state read
at evaluation time (level xor active-low polarity). -/
def lineStep (debounce : Nat) (al : Bool) (s : LineState) (e : LEvent) :
    LineState × List Bool :=
  match e with
  | .edge t _ => (gpio_keys_isr debounce t s, [])
  | .timerFire t =>
    if s.timerExpiry = some t then ({ timerExpiry := none, workQueued := true }, [])
    else (s, [])
  | .workRun level =>
    if s.workQueued then ({ s with workQueued := false }, [level != al])
    else (s, [])

/-- Run a list of pipeline events, concatenating the evaluations. -/
def runLine (debounce : Nat) (al : Bool) (s : LineState) :
    List LEvent → LineState × List Bool
  | [] => (s, [])
  | e :: es =>
    let r1 := lineStep debounce al s e
    let r2 := runLine debounce al r1.1 es
    (r2.1, r1.2 ++ r2.2)

/-! Consistency invariant and concrete fixtures. -/

/-- Consistency of one line's runtime state: an enabled line's interrupt is
unmasked, a disabled line's interrupt is masked and it has no live debounce
timer (the spec's registry invariant), and a line without software debounce
never has a timer armed. -/
def lineInv (b : GpioButtonData) : Prop :=
  (b.disabled = false → b.irqEnabled = true) ∧
  (b.disabled = true → b.irqEnabled = false ∧ b.timerPending = false) ∧
  (b.timer_debounce = 0 → b.timerPending = false)

instance (b : GpioButtonData) : Decidable (lineInv b) := by
  unfold lineInv; infer_instance

/-- Fixture: a line configuration. -/
def mkButton (g c ty : Nat) (al cd : Bool) (dbi : Nat) : GpioKeysButton :=
  { code := c
    gpio := g
    active_low := al
    btype := ty
    wakeup := false
    debounce_interval := dbi
    can_disable := cd
    value := 7 }

/-- Fixture: fresh runtime state for a line. -/
def mkData (btn : GpioKeysButton) : GpioButtonData :=
  { button := btn
    timer_debounce := btn.debounce_interval
    disabled := false
    key_state := false
    irqEnabled := true
    timerPending := false
    workPending := false }

/-- Fixture: policy with both remap features enabled and the suspend-state
gate satisfied (screen blanked, device not in full suspend). -/
def testConfig : Config :=
  { emulator_volup := false
    emulator_voldown := false
    volkey_press_skip_track := true
    homekey_press_play := true
    volkey_skip_tracks_in_suspend_only := true
    homekey_press_play_in_suspend_only := true
    is_suspend := false
    is_early_suspend := true }

/-- Fixture: policy with both remap feature flags off. -/
def offConfig : Config :=
  { testConfig with volkey_press_skip_track := false, homekey_press_play := false }

/-- Fixture: the volume-up line. -/
def volUpData : GpioButtonData := mkData (mkButton VOL_UP_JANICE_R0_0 KEY_VOLUMEUP 0 true false 0)

/-- Fixture: the volume-down line. -/
def volDownData : GpioButtonData := mkData (mkButton VOL_DOWN_JANICE_R0_0 KEY_VOLUMEDOWN 0 true false 0)

/-- Fixture: the home line. -/
def homeData : GpioButtonData := mkData (mkButton HOME_KEY_JANICE_R0_0 KEY_HOME 0 true false 0)

/-- Fixture: an absolute-class line on an ordinary gpio. -/
def absData : GpioButtonData := mkData (mkButton 50 20 EV_ABS false false 0)

/-- Fixture: a non-disableable switch, code 5. -/
def swData5 : GpioButtonData := mkData (mkButton 40 5 EV_SW false false 0)

/-- Fixture: a disableable switch, code 11. -/
def swData11 : GpioButtonData := mkData (mkButton 41 11 EV_SW false true 0)

/-- Fixture: a disableable, currently disabled switch with software
debounce, code 9. -/
def swData9dis : GpioButtonData :=
  { mkData (mkButton 42 9 EV_SW false true 2) with disabled := true, irqEnabled := false }

/-- Fixture: session state as left by a down-line press whose long-press work
has fired (selector pointing at the down line, window elapsed). -/
def downFiredState : RemapState :=
  { RemapState.idle with
      volkey_emulate_key_nextsong := false
      volkey_skip_track_now := true }

/-- Fixture: session state with both sessions' emulation pulses in flight. -/
def bothBusyState : RemapState :=
  { RemapState.idle with
      volkey_do_volume_key_press_is_ongoing := true
      homekey_do_press_play_is_ongoing := true }

/-- Fixture: on-demand injector state with a pulse running. -/
def busyEmuState : EmuState :=
  { emu_working := true
    emu_keycode := 115
    emuQueued := false }

/-! Theorems. -/

/-- Helper: a pair drawn from zipping a list with its image under f is an
element together with its image. -/
theorem mem_zip_map {α : Type} (f : α → α) :
    ∀ (l : List α) (p : α × α), p ∈ l.zip (l.map f) → p.1 ∈ l ∧ p.2 = f p.1 := by
  intro l
  induction l with
  | nil => intro p hp; simp at hp
  | cons a t ih =>
    intro p hp
    simp only [List.map_cons, List.zip_cons_cons] at hp
    rcases List.mem_cons.mp hp with h | h
    · subst h; exact ⟨List.mem_cons_self a t, rfl⟩
    · rcases ih p h with ⟨h1, h2⟩
      exact ⟨List.mem_cons_of_mem _ h1, h2⟩

/-- C1: a write to disabled_keys or disabled_switches whose parsed bitmap
names the code of any configured line of that class whose can_disable flag is
false fails the whole request with an error; the registry is returned
untouched (no disabled flag, interrupt mask, or pending timer changes) and no
masking, unmasking, timer cancellation, or locking action is performed. -/
theorem C1_store_rejects_whole_write
    (buttons : List GpioButtonData) (typ : Nat) (bits : List Nat) (count : Nat)
    (b : GpioButtonData) (hb : b ∈ buttons) (hty : b.button.btype = typ)
    (hc : b.button.code ∈ bits) (hcd : b.button.can_disable = false) :
    gpio_keys_store_disabled buttons typ (some bits) count =
      (.error .EINVAL, buttons, []) := by
  have hex : ∃ x ∈ buttons,
      x.button.btype = typ ∧ x.button.code ∈ bits ∧ x.button.can_disable = false :=
    ⟨b, hb, hty, hc, hcd⟩
  simp [gpio_keys_store_disabled, gpio_keys_attr_store_helper, hex]

/-- Concrete application of C1_store_rejects_whole_write: writing {5,11} to
the switch class where code 5 is not disableable rejects the entire write and
leaves the registry intact. -/
theorem C1_store_rejects_whole_write_witness :
    gpio_keys_store_disabled [swData5, swData11] EV_SW (some [5, 11]) 4 =
      (.error .EINVAL, [swData5, swData11], []) :=
  C1_store_rejects_whole_write [swData5, swData11] EV_SW [5, 11] 4 swData5
    (by decide) (by decide) (by decide) (by decide)

/-- C5: disabling an already-disabled line and enabling an already-enabled
line are no-ops: the second application returns the same runtime state and
performs no action, and the reported disabled bitmap over any registry is
unchanged by the repeated application. -/
theorem C5_disable_enable_idempotent (buttons : List GpioButtonData)
    (b : GpioButtonData) (typ : Nat) (od : Bool) :
    gpio_keys_disable_button (gpio_keys_disable_button b).1 =
      ((gpio_keys_disable_button b).1, []) ∧
    gpio_keys_enable_button (gpio_keys_enable_button b).1 =
      ((gpio_keys_enable_button b).1, []) ∧
    gpio_keys_attr_show_helper
        (buttons.map fun x => (gpio_keys_disable_button (gpio_keys_disable_button x).1).1)
        typ od =
      gpio_keys_attr_show_helper (buttons.map fun x => (gpio_keys_disable_button x).1) typ od ∧
    gpio_keys_attr_show_helper
        (buttons.map fun x => (gpio_keys_enable_button (gpio_keys_enable_button x).1).1)
        typ od =
      gpio_keys_attr_show_helper (buttons.map fun x => (gpio_keys_enable_button x).1) typ od := by
  have hd : ∀ x : GpioButtonData,
      gpio_keys_disable_button (gpio_keys_disable_button x).1 =
        ((gpio_keys_disable_button x).1, []) := by
    intro x
    unfold gpio_keys_disable_button
    by_cases h : x.disabled = false <;> simp [h]
  have he : ∀ x : GpioButtonData,
      gpio_keys_enable_button (gpio_keys_enable_button x).1 =
        ((gpio_keys_enable_button x).1, []) := by
    intro x
    unfold gpio_keys_enable_button
    by_cases h : x.disabled = true <;> simp [h]
  refine ⟨hd b, he b, ?_, ?_⟩
  · simp only [hd]
  · simp only [he]

/-- Helper: the per-line apply step emits no locking actions of its own. -/
theorem applyLine_no_mutex (typ : Nat) (bits : List Nat) (b : GpioButtonData) :
    Act.mutexLock ∉ (applyLine typ bits b).2 ∧
    Act.mutexUnlock ∉ (applyLine typ bits b).2 := by
  unfold applyLine gpio_keys_disable_button gpio_keys_enable_button
  by_cases h1 : b.button.btype = typ <;> by_cases h2 : b.button.code ∈ bits <;>
    cases hd : b.disabled <;> by_cases h4 : b.timer_debounce = 0 <;>
      simp [h1, h2, hd, h4]

/-- Helper: state postcondition of the per-line apply step under the registry
invariant. -/
theorem applyLine_post (typ : Nat) (bits : List Nat) (b : GpioButtonData)
    (hinv : lineInv b) :
    (b.button.btype = typ → b.button.code ∈ bits →
      (applyLine typ bits b).1.disabled = true ∧
      (applyLine typ bits b).1.irqEnabled = false ∧
      (applyLine typ bits b).1.timerPending = false) ∧
    (b.button.btype = typ → b.button.code ∉ bits →
      (applyLine typ bits b).1.disabled = false ∧
      (applyLine typ bits b).1.irqEnabled = true) ∧
    (b.button.btype ≠ typ → (applyLine typ bits b).1 = b) := by
  obtain ⟨i1, i2, i3⟩ := hinv
  unfold applyLine gpio_keys_disable_button gpio_keys_enable_button
  by_cases h1 : b.button.btype = typ <;> by_cases h2 : b.button.code ∈ bits <;>
    cases hd : b.disabled <;> by_cases h4 : b.timer_debounce = 0 <;>
      simp_all

/-- C4: a validated disabled-set write applies inside one lock/unlock pair of
the per-class disable_lock (no locking actions in between), and afterwards
every line of the class named in the bitmap is disabled with its interrupt
masked and no pending debounce timer, every line of the class not named is
enabled with its interrupt unmasked, and lines of other classes are
untouched. -/
theorem C4_store_apply_atomic
    (buttons : List GpioButtonData) (typ : Nat) (bits : List Nat)
    (hval : ∀ b ∈ buttons, ¬(b.button.btype = typ ∧ b.button.code ∈ bits ∧
      b.button.can_disable = false))
    (hinv : ∀ b ∈ buttons, lineInv b) :
    ∃ buttons' acts,
      gpio_keys_attr_store_helper buttons typ (some bits) = .ok (buttons', acts) ∧
      (∃ inner, acts = .mutexLock :: (inner ++ [.mutexUnlock]) ∧
        Act.mutexLock ∉ inner ∧ Act.mutexUnlock ∉ inner) ∧
      ∀ p ∈ buttons.zip buttons',
        (p.1.button.btype = typ → p.1.button.code ∈ bits →
          p.2.disabled = true ∧ p.2.irqEnabled = false ∧ p.2.timerPending = false) ∧
        (p.1.button.btype = typ → p.1.button.code ∉ bits →
          p.2.disabled = false ∧ p.2.irqEnabled = true) ∧
        (p.1.button.btype ≠ typ → p.2 = p.1) := by
  have hno : ¬ ∃ x ∈ buttons, x.button.btype = typ ∧ x.button.code ∈ bits ∧
      x.button.can_disable = false := by
    rintro ⟨x, hx, hp⟩
    exact hval x hx hp
  have hhelper : gpio_keys_attr_store_helper buttons typ (some bits) =
      .ok (buttons.map (fun b => (applyLine typ bits b).1),
        .mutexLock ::
          ((buttons.map (fun b => (applyLine typ bits b).2)).flatten ++
            [.mutexUnlock])) := by
    simp [gpio_keys_attr_store_helper, hno, applyLine, Function.comp_def]
  refine ⟨_, _, hhelper, ⟨_, rfl, ?_, ?_⟩, ?_⟩
  · intro hmem
    rcases List.mem_flatten.mp hmem with ⟨s, hs, has⟩
    rcases List.mem_map.mp hs with ⟨b, hb, rfl⟩
    exact (applyLine_no_mutex typ bits b).1 has
  · intro hmem
    rcases List.mem_flatten.mp hmem with ⟨s, hs, has⟩
    rcases List.mem_map.mp hs with ⟨b, hb, rfl⟩
    exact (applyLine_no_mutex typ bits b).2 has
  · intro p hp
    rcases mem_zip_map _ buttons p hp with ⟨h1, h2⟩
    have hpost := applyLine_post typ bits p.1 (hinv p.1 h1)
    rw [h2]
    exact hpost

/-- Concrete application of C4_store_apply_atomic: writing {11} to the
switch class of a registry holding codes 5 (enabled), 11 (enabled) and 9
(disabled, with debounce) succeeds, disables 11 and re-enables 9 under one
lock scope. -/
theorem C4_store_apply_atomic_witness :
    ∃ buttons' acts,
      gpio_keys_attr_store_helper [swData5, swData11, swData9dis] EV_SW (some [11]) =
        .ok (buttons', acts) ∧
      (∃ inner, acts = .mutexLock :: (inner ++ [.mutexUnlock]) ∧
        Act.mutexLock ∉ inner ∧ Act.mutexUnlock ∉ inner) ∧
      ∀ p ∈ [swData5, swData11, swData9dis].zip buttons',
        (p.1.button.btype = EV_SW → p.1.button.code ∈ [11] →
          p.2.disabled = true ∧ p.2.irqEnabled = false ∧ p.2.timerPending = false) ∧
        (p.1.button.btype = EV_SW → p.1.button.code ∉ [11] →
          p.2.disabled = false ∧ p.2.irqEnabled = true) ∧
        (p.1.button.btype ≠ EV_SW → p.2 = p.1) :=
  C4_store_apply_atomic [swData5, swData11, swData9dis] EV_SW [11]
    (by decide) (by decide)

/-- C9: a write to wakeup_keys returns the full byte count whether or not the
range list parses; on a successful parse every configured line named in the
list gets its wakeup flag set and every configured line not named gets it
cleared; codes matching no configured line are ignored; and a malformed write
changes nothing. -/
theorem C9_wakeup_enable_semantics
    (buttons : List GpioButtonData) (bits extra : List Nat) (count : Nat)
    (hextra : ∀ b ∈ buttons, b.button.code ∉ extra) :
    (wakeup_enable buttons (some bits) count).2 = count ∧
    wakeup_enable buttons none count = (buttons, count) ∧
    (∀ p ∈ buttons.zip (wakeup_enable buttons (some bits) count).1,
      (p.1.button.code ∈ bits → p.2.button.wakeup = true) ∧
      (p.1.button.code ∉ bits → p.2.button.wakeup = false)) ∧
    wakeup_enable buttons (some (bits ++ extra)) count =
      wakeup_enable buttons (some bits) count := by
  refine ⟨rfl, rfl, ?_, ?_⟩
  · intro p hp
    rcases mem_zip_map _ buttons p hp with ⟨h1, h2⟩
    constructor
    · intro hin
      rw [h2]
      simp [hin]
    · intro hout
      rw [h2]
      simp [hout]
  · unfold wakeup_enable
    refine congrArg (fun l => (l, count)) (List.map_congr_left ?_)
    intro b hb
    have : (b.button.code ∈ bits ++ extra) = (b.button.code ∈ bits) := by
      simp [List.mem_append, hextra b hb]
    simp [this]

/-- Concrete application of C9_wakeup_enable_semantics: writing {115, 999} to
wakeup_keys over the volume lines returns the byte count, sets wakeup on code
115, clears it on code 114, and the unconfigured code 999 is ignored. -/
theorem C9_wakeup_enable_semantics_witness :
    (wakeup_enable [volUpData, volDownData] (some [115]) 8).2 = 8 ∧
    wakeup_enable [volUpData, volDownData] none 8 = ([volUpData, volDownData], 8) ∧
    (∀ p ∈ [volUpData, volDownData].zip
        (wakeup_enable [volUpData, volDownData] (some [115]) 8).1,
      (p.1.button.code ∈ [115] → p.2.button.wakeup = true) ∧
      (p.1.button.code ∉ [115] → p.2.button.wakeup = false)) ∧
    wakeup_enable [volUpData, volDownData] (some ([115] ++ [999])) 8 =
      wakeup_enable [volUpData, volDownData] (some [115]) 8 :=
  C9_wakeup_enable_semantics [volUpData, volDownData] [115] [999] 8 (by decide)

/-- C7: when the power-key emulator overrides are off and the long-press gate
does not hold, any edge on any non-absolute line — the remap-capable volume
and home lines included — bypasses the remap sessions entirely: the session
state is untouched (no long-press timer armed, no emulation queued) and the
edge is reported immediately through the ordinary input path with the line's
ordinary logical code. -/
theorem C7_gate_off_bypasses_remap
    (cfg : Config) (rs : RemapState) (bd : GpioButtonData) (level : Bool)
    (h1 : cfg.emulator_volup = false) (h2 : cfg.emulator_voldown = false)
    (hg : remapGate cfg = false)
    (hty : effType bd.button ≠ EV_ABS) :
    gpio_keys_report_event cfg rs bd level =
      (rs,
        { bd with key_state := logicalState bd.button level ≠ 0 },
        [.inputEv (effType bd.button) bd.button.code
            (if logicalState bd.button level ≠ 0 then 1 else 0),
          .inputSync]) := by
  simp [gpio_keys_report_event, normalReport, h1, h2, hg, hty]

/-- Concrete application of C7_gate_off_bypasses_remap: with the feature
flags off, a press edge of the volume-up line reports KEY_VOLUMEUP directly
and leaves the session idle. -/
theorem C7_gate_off_bypasses_remap_witness :
    gpio_keys_report_event offConfig .idle volUpData false =
      (RemapState.idle,
        { volUpData with key_state := logicalState volUpData.button false ≠ 0 },
        [.inputEv (effType volUpData.button) volUpData.button.code
            (if logicalState volUpData.button false ≠ 0 then 1 else 0),
          .inputSync]) :=
  C7_gate_off_bypasses_remap offConfig .idle volUpData false rfl rfl
    (by decide) (by decide)

/-- C10: for a line of the absolute event class (on an ordinary gpio, not one
of the three remap lines), deferred evaluation reports an input event with
the line's configured value only when the evaluated logical state is active;
an inactive evaluation emits nothing but the sync, and the line's key_state
(last reported state) is never updated. -/
theorem C10_abs_line_reports_only_active
    (cfg : Config) (rs : RemapState) (bd : GpioButtonData) (level : Bool)
    (hup : bd.button.gpio ≠ VOL_UP_JANICE_R0_0)
    (hdn : bd.button.gpio ≠ VOL_DOWN_JANICE_R0_0)
    (hhm : bd.button.gpio ≠ HOME_KEY_JANICE_R0_0)
    (habs : bd.button.btype = EV_ABS) :
    gpio_keys_report_event cfg rs bd level =
      (rs, bd,
        (if logicalState bd.button level ≠ 0 then
          [Emu.inputEv EV_ABS bd.button.code bd.button.value]
         else []) ++ [.inputSync]) := by
  have hty : effType bd.button = EV_ABS := by simp [effType, habs, EV_ABS]
  by_cases e1 : cfg.emulator_volup <;> by_cases e2 : cfg.emulator_voldown <;>
    by_cases eg : remapGate cfg <;>
      simp [gpio_keys_report_event, normalReport, hty, hup, hdn, hhm, e1, e2, eg]

/-- Concrete application of C10_abs_line_reports_only_active: an inactive
evaluation of an absolute line produces only a sync and no input event, with
runtime state untouched. -/
theorem C10_abs_line_reports_only_active_witness :
    gpio_keys_report_event testConfig .idle absData false =
      (RemapState.idle, absData,
        (if logicalState absData.button false ≠ 0 then
          [Emu.inputEv EV_ABS absData.button.code absData.button.value]
         else []) ++ [.inputSync]) :=
  C10_abs_line_reports_only_active testConfig .idle absData false
    (by decide) (by decide) (by decide) (by decide)

/-- C2: a volume-line long-press gesture starting with the session idle and
no emulation in flight: if the release is evaluated before the long-press
delayed work fires, exactly one pulse of the line's primary code is emitted
and the alternate code never is; if the delayed work fires before the release
is evaluated, exactly one pulse of the alternate code is emitted and the
primary code never is. -/
theorem C2_vol_long_press_gesture
    (cfg : Config) (bd : GpioButtonData)
    (h1 : cfg.emulator_volup = false) (h2 : cfg.emulator_voldown = false)
    (hg : remapGate cfg = true)
    (hv : (cfg.volkey_press_skip_track || !cfg.volkey_skip_tracks_in_suspend_only) = true)
    (hgpio : bd.button.gpio = VOL_UP_JANICE_R0_0 ∨ bd.button.gpio = VOL_DOWN_JANICE_R0_0) :
    pulseList (runRemap cfg .idle
        [.edge bd (!bd.button.active_low), .edge bd bd.button.active_low,
          .volPressRun]).2 =
      [if bd.button.gpio = VOL_UP_JANICE_R0_0 then KEY_VOLUMEUP else KEY_VOLUMEDOWN] ∧
    (if bd.button.gpio = VOL_UP_JANICE_R0_0 then KEY_NEXTSONG else KEY_PREVIOUSSONG) ∉
      pulseList (runRemap cfg .idle
        [.edge bd (!bd.button.active_low), .edge bd bd.button.active_low,
          .volPressRun]).2 ∧
    pulseList (runRemap cfg .idle
        [.edge bd (!bd.button.active_low), .volTimer, .edge bd bd.button.active_low,
          .volPressRun]).2 =
      [if bd.button.gpio = VOL_UP_JANICE_R0_0 then KEY_NEXTSONG else KEY_PREVIOUSSONG] ∧
    (if bd.button.gpio = VOL_UP_JANICE_R0_0 then KEY_VOLUMEUP else KEY_VOLUMEDOWN) ∉
      pulseList (runRemap cfg .idle
        [.edge bd (!bd.button.active_low), .volTimer, .edge bd bd.button.active_low,
          .volPressRun]).2 := by
  rcases hgpio with hgp | hgp <;>
    cases hal : bd.button.active_low <;>
      simp [runRemap, remapStep, gpio_keys_report_event, volkeyBlock, homekeyBlock,
        normalReport, pulseList, volkey_do_volume_key_press_fn, volkey_skip_track_fn,
        RemapState.idle, logicalState, effType, h1, h2, hg, hv, hgp, hal,
        VOL_UP_JANICE_R0_0, VOL_DOWN_JANICE_R0_0, HOME_KEY_JANICE_R0_0,
        KEY_VOLUMEUP, KEY_VOLUMEDOWN, KEY_NEXTSONG, KEY_PREVIOUSSONG]

/-- Concrete application of C2_vol_long_press_gesture: a short press of the
volume-up line under the enabled policy emits exactly one KEY_VOLUMEUP
pulse. -/
theorem C2_vol_long_press_gesture_witness :
    pulseList (runRemap testConfig .idle
        [.edge volUpData (!volUpData.button.active_low),
          .edge volUpData volUpData.button.active_low, .volPressRun]).2 =
      [if volUpData.button.gpio = VOL_UP_JANICE_R0_0 then KEY_VOLUMEUP
       else KEY_VOLUMEDOWN] :=
  (C2_vol_long_press_gesture testConfig volUpData rfl rfl (by decide) (by decide)
    (Or.inl rfl)).1

/-- Helper: every volume-line edge overwrites the direction selector with the
identity of the line that produced that edge, whatever the session state and
whether the edge is a press or a release. -/
theorem volkeyBlock_selector (rs : RemapState) (g st : Nat) :
    (volkeyBlock rs g st).1.volkey_emulate_key_nextsong =
      decide (g = VOL_UP_JANICE_R0_0) := by
  unfold volkeyBlock
  dsimp only
  split_ifs <;> rfl

/-- C8: the choice between the up-direction and down-direction codes is
determined by which volume sub-line most recently transitioned — the selector
is overwritten on every edge of either sub-line, press or release — not by
which sub-line is held at release time: a release edge arriving on the up
line while the down line is still held (after a down press started the
session and the long-press work fired) emits the up line's alternate code
KEY_NEXTSONG. -/
theorem C8_direction_follows_last_transition
    (cfg : Config) (rs : RemapState) (bd : GpioButtonData) (level : Bool)
    (h1 : cfg.emulator_volup = false) (h2 : cfg.emulator_voldown = false)
    (hg : remapGate cfg = true)
    (hv : (cfg.volkey_press_skip_track || !cfg.volkey_skip_tracks_in_suspend_only) = true)
    (hgpio : bd.button.gpio = VOL_UP_JANICE_R0_0 ∨ bd.button.gpio = VOL_DOWN_JANICE_R0_0) :
    (gpio_keys_report_event cfg rs bd level).1.volkey_emulate_key_nextsong =
      decide (bd.button.gpio = VOL_UP_JANICE_R0_0) ∧
    pulseList (runRemap testConfig .idle
        [.edge volDownData (!volDownData.button.active_low), .volTimer,
          .edge volUpData volUpData.button.active_low, .volPressRun]).2 =
      [KEY_NEXTSONG] := by
  constructor
  · rcases hgpio with hgp | hgp <;>
      simp [gpio_keys_report_event, volkeyBlock_selector, h1, h2, hg, hv, hgp,
        VOL_UP_JANICE_R0_0, VOL_DOWN_JANICE_R0_0, HOME_KEY_JANICE_R0_0]
  · decide

/-- Concrete application of C8_direction_follows_last_transition: a release
edge of the volume-up line overwrites the selector even while the session was
started by the down line. -/
theorem C8_direction_follows_last_transition_witness :
    (gpio_keys_report_event testConfig downFiredState volUpData
        volUpData.button.active_low).1.volkey_emulate_key_nextsong =
      decide (volUpData.button.gpio = VOL_UP_JANICE_R0_0) :=
  (C8_direction_follows_last_transition testConfig downFiredState volUpData
    volUpData.button.active_low rfl rfl (by decide) (by decide) (Or.inl rfl)).1

/-- C3 as stated is false on the code: the in-flight guard is per path, not
system-wide.  Concretely, after a short volume-up gesture whose emulation
pulse is still in flight, a short home gesture is accepted rather than
dropped — both sessions end up with emulation queued and ongoing at once, and
running the two queued works issues two press/release pulses. -/
theorem C3_counterexample :
    ((runRemap testConfig .idle
        [.edge volUpData false, .edge volUpData true,
          .edge homeData false, .edge homeData true]).1.volkey_do_volume_key_press_is_ongoing
      = true) ∧
    ((runRemap testConfig .idle
        [.edge volUpData false, .edge volUpData true,
          .edge homeData false, .edge homeData true]).1.homekey_do_press_play_is_ongoing
      = true) ∧
    ((runRemap testConfig .idle
        [.edge volUpData false, .edge volUpData true,
          .edge homeData false, .edge homeData true]).1.volPressQueued = true) ∧
    ((runRemap testConfig .idle
        [.edge volUpData false, .edge volUpData true,
          .edge homeData false, .edge homeData true]).1.homePressQueued = true) ∧
    pulseList (runRemap testConfig .idle
        [.edge volUpData false, .edge volUpData true, .edge homeData false,
          .edge homeData true, .homePressRun, .volPressRun]).2 =
      [HOME_KEY_CODINA_R0_5, KEY_VOLUMEUP] := by
  decide

/-- Helper: while the volume session's pulse is in flight, a volume-line edge
emits nothing and queues no work; the queued markers of both sessions are
preserved. -/
theorem volkeyBlock_inflight_noop (rs : RemapState) (g st : Nat)
    (hvol : rs.volkey_do_volume_key_press_is_ongoing = true) :
    (volkeyBlock rs g st).2 = [] ∧
    (volkeyBlock rs g st).1.volPressQueued = rs.volPressQueued ∧
    (volkeyBlock rs g st).1.homePressQueued = rs.homePressQueued := by
  unfold volkeyBlock
  dsimp only
  split_ifs <;> simp_all

/-- Helper: while the home session's pulse is in flight, a home-line edge
emits nothing and queues no work; the queued markers of both sessions are
preserved. -/
theorem homekeyBlock_inflight_noop (rs : RemapState) (st : Nat)
    (hhome : rs.homekey_do_press_play_is_ongoing = true) :
    (homekeyBlock rs st).2 = [] ∧
    (homekeyBlock rs st).1.volPressQueued = rs.volPressQueued ∧
    (homekeyBlock rs st).1.homePressQueued = rs.homePressQueued := by
  unfold homekeyBlock
  dsimp only
  split_ifs <;> simp_all

/-- Helper: the ordinary reporting path leaves the session state unchanged
and emits no synthetic pulse. -/
theorem normalReport_session (rs : RemapState) (bd : GpioButtonData) (ty st : Nat) :
    (normalReport rs bd ty st).1 = rs ∧
    pulseList (normalReport rs bd ty st).2.2 = [] := by
  unfold normalReport pulseList
  split_ifs <;> simp

/-- C3 amended: the single-pulse guarantee of the emulation injector is per
path, not system-wide.  While a path's own pulse is in flight — the volume
session's, the home session's, or the on-demand injector's — a further
request on that same path is dropped, not queued: an edge evaluated with both
sessions' pulses in flight emits no synthetic pulse and leaves both sessions'
queued-work markers unchanged, and an on-demand press command arriving while
emu_working is set schedules nothing.  (Across different paths no exclusion
exists; see C3_counterexample.) -/
theorem C3_per_path_single_pulse
    (cfg : Config) (rs : RemapState) (bd : GpioButtonData) (level : Bool)
    (s : EmuState)
    (h1 : cfg.emulator_volup = false) (h2 : cfg.emulator_voldown = false)
    (hvol : rs.volkey_do_volume_key_press_is_ongoing = true)
    (hhome : rs.homekey_do_press_play_is_ongoing = true)
    (hemu : s.emu_working = true) :
    pulseList (gpio_keys_report_event cfg rs bd level).2.2 = [] ∧
    (gpio_keys_report_event cfg rs bd level).1.volPressQueued = rs.volPressQueued ∧
    (gpio_keys_report_event cfg rs bd level).1.homePressQueued = rs.homePressQueued ∧
    gpio_keys_emulator_store_press s = s := by
  have hstore : gpio_keys_emulator_store_press s = s := by
    unfold gpio_keys_emulator_store_press
    simp [hemu]
  unfold gpio_keys_report_event
  simp only [h1, h2, Bool.false_eq_true, if_false]
  split_ifs with hgate hhomebr hvolbr
  · rcases homekeyBlock_inflight_noop rs (logicalState bd.button level) hhome with
      ⟨ha, hb, hc⟩
    simp [ha, hb, hc, pulseList, hstore]
  · rcases volkeyBlock_inflight_noop rs bd.button.gpio (logicalState bd.button level)
      hvol with ⟨ha, hb, hc⟩
    simp [ha, hb, hc, pulseList, hstore]
  · rcases normalReport_session rs bd (effType bd.button) (logicalState bd.button level)
      with ⟨ha, hb⟩
    simp [ha, hb, hstore]
  · rcases normalReport_session rs bd (effType bd.button) (logicalState bd.button level)
      with ⟨ha, hb⟩
    simp [ha, hb, hstore]

/-- Concrete application of C3_per_path_single_pulse: with both sessions'
pulses in flight, a fresh volume-up press emits nothing, queues nothing, and
the busy on-demand injector drops a press command. -/
theorem C3_per_path_single_pulse_witness :
    pulseList (gpio_keys_report_event testConfig bothBusyState volUpData
        false).2.2 = [] ∧
    (gpio_keys_report_event testConfig bothBusyState volUpData
        false).1.volPressQueued = bothBusyState.volPressQueued ∧
    (gpio_keys_report_event testConfig bothBusyState volUpData
        false).1.homePressQueued = bothBusyState.homePressQueued ∧
    gpio_keys_emulator_store_press busyEmuState = busyEmuState :=
  C3_per_path_single_pulse testConfig bothBusyState volUpData false busyEmuState
    rfl rfl (by decide) (by decide) (by decide)

/-- Helper: one-step unfolding of runLine. -/
theorem runLine_cons (d : Nat) (al : Bool) (s : LineState) (e : LEvent)
    (es : List LEvent) :
    runLine d al s (e :: es) =
      ((runLine d al (lineStep d al s e).1 es).1,
        (lineStep d al s e).2 ++ (runLine d al (lineStep d al s e).1 es).2) := rfl

/-- Helper: running a concatenation of pipeline events runs the pieces in
sequence and concatenates the evaluations. -/
theorem runLine_append (d : Nat) (al : Bool) (es1 es2 : List LEvent) :
    ∀ s, runLine d al s (es1 ++ es2) =
      ((runLine d al (runLine d al s es1).1 es2).1,
        (runLine d al s es1).2 ++ (runLine d al (runLine d al s es1).1 es2).2) := by
  induction es1 with
  | nil => intro s; simp [runLine]
  | cons e t ih => intro s; simp [runLine, ih, List.append_assoc]

/-- Helper: with software debounce, a nonempty burst of edges leaves the
single one-shot timer armed for the last edge's time plus the debounce
interval — every edge overwrote the previous arm — produces no evaluation,
and never touches the work queue. -/
theorem runLine_edges (d : Nat) (al : Bool) (hd : d ≠ 0) :
    ∀ (edges : List (Nat × Bool)) (hne : edges ≠ []) (s : LineState),
      runLine d al s (edges.map (fun p => LEvent.edge p.1 p.2)) =
        (⟨some ((edges.getLast hne).1 + d), s.workQueued⟩, []) := by
  intro edges
  induction edges with
  | nil => intro hne; cases hne rfl
  | cons e t ih =>
    intro hne s
    cases t with
    | nil => simp [runLine, lineStep, gpio_keys_isr, hd]
    | cons e2 t2 =>
      have h2 : (e2 :: t2) ≠ [] := by simp
      rw [List.map_cons, runLine_cons, ih h2]
      simp [lineStep, gpio_keys_isr, hd, List.getLast]

/-- C6: for a line with a nonzero software debounce interval, any nonempty
burst of hardware edges leaves exactly one pending timer arm — the last
edge's time plus the interval, each edge having overwritten the previous
arm — and once that timer fires and the deferred work runs, exactly one
evaluation is produced, reading the line's electrical level at evaluation
time xor the active-low polarity (the edges' own levels are ignored); a line
with zero debounce interval queues deferred evaluation directly from the
interrupt handler. -/
theorem C6_debounce_collapses_edges
    (d : Nat) (al : Bool) (edges : List (Nat × Bool)) (lvl : Bool)
    (hd : d ≠ 0) (hne : edges ≠ []) :
    (runLine d al ⟨none, false⟩ (edges.map (fun p => LEvent.edge p.1 p.2))).1 =
      ⟨some ((edges.getLast hne).1 + d), false⟩ ∧
    runLine d al ⟨none, false⟩
        (edges.map (fun p => LEvent.edge p.1 p.2) ++
          [LEvent.timerFire ((edges.getLast hne).1 + d), LEvent.workRun lvl]) =
      (⟨none, false⟩, [lvl != al]) ∧
    (∀ (t : Nat) (s : LineState), gpio_keys_isr 0 t s = { s with workQueued := true }) := by
  refine ⟨?_, ?_, ?_⟩
  · rw [runLine_edges d al hd edges hne]
  · rw [runLine_append, runLine_edges d al hd edges hne]
    simp [runLine, lineStep]
  · intro t s
    simp [gpio_keys_isr]

/-- Concrete application of C6_debounce_collapses_edges: three edges at times
0, 1, 3 with a 5 ms debounce collapse to a single arm at 8 and one evaluation
of the level read when the work runs. -/
theorem C6_debounce_collapses_edges_witness :
    (runLine 5 false ⟨none, false⟩
        ([(0, true), (1, false), (3, true)].map (fun p => LEvent.edge p.1 p.2))).1 =
      ⟨some 8, false⟩ ∧
    runLine 5 false ⟨none, false⟩
        ([(0, true), (1, false), (3, true)].map (fun p => LEvent.edge p.1 p.2) ++
          [LEvent.timerFire 8, LEvent.workRun true]) =
      (⟨none, false⟩, [true != false]) ∧
    (∀ (t : Nat) (s : LineState), gpio_keys_isr 0 t s = { s with workQueued := true }) :=
  C6_debounce_collapses_edges 5 false [(0, true), (1, false), (3, true)] true
    (by decide) (by decide)

end GpioKeys
